import Mathlib

/-!
Verification of the cache-aside API in src/api/index.js.

The embedding models the request-serving layer: a world holding the redis
liveness flag (redisReady), the redis key-value cache, the replica and
primary product tables, and fault flags saying whether the underlying redis
client calls fail even though the flag reads true. Each route handler is a
pure function from a world and request data to a typed response, the
post-state world, and a trace of the I/O effects it attempted (executor
queries, underlying redis client calls, set and del arguments).
-/

/-- A product row as returned by the SQL queries: id, name, price_cents,
updated_at (the NOW() timestamp is modelled as a Nat). -/
structure Row where
  id : Int
  name : String
  price_cents : Int
  updated_at : Nat
deriving Repr, DecidableEq

/-- A value stored in redis. JSON.stringify and JSON.parse are external
builtins; a serialized row is modelled by the injective constructor ser
(JSON.stringify of two distinct rows of this shape differs), while raw
covers any other string a cache entry may hold. -/
inductive CacheVal where
  | ser (row : Row)
  | raw (s : String)
deriving Repr, DecidableEq

/-- JavaScript truthiness of the cached string: JSON.stringify of a row is a
nonempty string, hence truthy; a raw string is truthy iff nonempty. -/
def CacheVal.truthy : CacheVal → Bool
  | CacheVal.ser _ => true
  | CacheVal.raw s => !(s == "")

/-- JSON.parse on a cached value: a serialized row parses back to the row
(round trip of the external builtin); a raw string is modelled as failing
to parse to a row. -/
def jsonParse : CacheVal → Option Row
  | CacheVal.ser r => some r
  | CacheVal.raw _ => none

/-- The process-wide state the handlers read and write. getFails, setFails
and delFails model the underlying redis client call rejecting although
redisReady was read as true (network error after the flag was last
updated). cacheTtlSeconds is the CACHE_TTL_SECONDS configuration. -/
structure World where
  redisReady : Bool
  cache : List (String × CacheVal)
  replicaDb : List Row
  primaryDb : List Row
  getFails : Bool
  setFails : Bool
  delFails : Bool
  cacheTtlSeconds : Nat
deriving Repr, DecidableEq

/-- Trace of the I/O a handler attempted: queries sent to the replica pool,
queries sent to the primary pool, underlying redis client calls issued
(past the liveness check), and the arguments of attempted redis set and
del calls. -/
structure Trace where
  readExecCalls : Nat
  writeExecCalls : Nat
  redisCalls : Nat
  setCalls : List (String × CacheVal × Nat)
  delCalls : List String
deriving Repr, DecidableEq

def Trace.empty : Trace := ⟨0, 0, 0, [], []⟩

def Trace.merge (a b : Trace) : Trace :=
  ⟨a.readExecCalls + b.readExecCalls, a.writeExecCalls + b.writeExecCalls,
   a.redisCalls + b.redisCalls, a.setCalls ++ b.setCalls, a.delCalls ++ b.delCalls⟩

/-- The one error kind of the cache layer, "Redis unavailable". -/
inductive CacheErr where
  | unavailable
deriving Repr, DecidableEq

/-- redis.get result on the modelled key-value state: none when the key is
absent (a normal outcome), some value when present. -/
def lookupCache (c : List (String × CacheVal)) (k : String) : Option CacheVal :=
  Option.map Prod.snd (List.find? (fun p => p.1 == k) c)

/-- redis.set overwrite on the modelled key-value state. -/
def insertCache (c : List (String × CacheVal)) (k : String) (v : CacheVal) :
    List (String × CacheVal) :=
  (k, v) :: List.filter (fun p => !(p.1 == k)) c

/-- redis.del on the modelled key-value state. -/
def removeCache (c : List (String × CacheVal)) (k : String) :
    List (String × CacheVal) :=
  List.filter (fun p => !(p.1 == k)) c

/-- cacheGet from src/api/index.js lines 73-76: throw before any client
call when the liveness flag is false, else issue redis.get, which may
itself fail. -/
def cacheGet (w : World) (key : String) :
    Except CacheErr (Option CacheVal) × Trace :=
  if w.redisReady = false then (Except.error CacheErr.unavailable, Trace.empty)
  else if w.getFails then (Except.error CacheErr.unavailable, ⟨0, 0, 1, [], []⟩)
  else (Except.ok (lookupCache w.cache key), ⟨0, 0, 1, [], []⟩)

/-- cacheSet from src/api/index.js lines 78-81: throw before any client
call when the liveness flag is false, else issue redis.set with EX ttl. -/
def cacheSet (w : World) (key : String) (v : CacheVal) (ttl : Nat) :
    Except CacheErr World × Trace :=
  if w.redisReady = false then (Except.error CacheErr.unavailable, Trace.empty)
  else if w.setFails then
    (Except.error CacheErr.unavailable, ⟨0, 0, 1, [(key, v, ttl)], []⟩)
  else
    (Except.ok ⟨w.redisReady, insertCache w.cache key v, w.replicaDb, w.primaryDb,
      w.getFails, w.setFails, w.delFails, w.cacheTtlSeconds⟩,
     ⟨0, 0, 1, [(key, v, ttl)], []⟩)

/-- cacheDel from src/api/index.js lines 83-86: throw before any client
call when the liveness flag is false, else issue redis.del. -/
def cacheDel (w : World) (key : String) : Except CacheErr World × Trace :=
  if w.redisReady = false then (Except.error CacheErr.unavailable, Trace.empty)
  else if w.delFails then
    (Except.error CacheErr.unavailable, ⟨0, 0, 1, [], [key]⟩)
  else
    (Except.ok ⟨w.redisReady, removeCache w.cache key, w.replicaDb, w.primaryDb,
      w.getFails, w.setFails, w.delFails, w.cacheTtlSeconds⟩,
     ⟨0, 0, 1, [], [key]⟩)

/-- ensureRedis from src/api/index.js lines 65-71: the route-entry gate on
the liveness flag. -/
def ensureRedis (w : World) : Bool := w.redisReady

/-- Digit list to number, for the parseInt model. -/
def digitsVal (ds : List Char) : Nat :=
  List.foldl (fun acc c => acc * 10 + (c.toNat - Char.toNat '0')) 0 ds

/-- JavaScript parseInt(s, 10) followed by the Number.isFinite check of the
handlers: skip leading whitespace, take an optional sign and the longest
leading run of decimal digits, ignore any trailing characters; none models
NaN (no digits), which Number.isFinite rejects. -/
def parseIntJS (s : String) : Option Int :=
  let cs := List.dropWhile (fun c => c == ' ' || c == '\t' || c == '\n' || c == '\r') s.data
  match cs with
  | '-' :: rest =>
    let ds := List.takeWhile Char.isDigit rest
    if ds.isEmpty then none else some (-(digitsVal ds : Int))
  | '+' :: rest =>
    let ds := List.takeWhile Char.isDigit rest
    if ds.isEmpty then none else some (digitsVal ds : Int)
  | _ =>
    let ds := List.takeWhile Char.isDigit cs
    if ds.isEmpty then none else some (digitsVal ds : Int)

/-- The cache key built at src/api/index.js lines 107 and 171. -/
def productKey (id : Int) : String := "product:" ++ toString id

/-- Typed outcome of GET /products/:id, with the X-Cache tag on success. -/
inductive CacheStatus where
  | hit
  | miss
deriving Repr, DecidableEq

inductive GetResult where
  | ok (row : Row) (cacheStatus : CacheStatus)
  | invalidId
  | notFound
  | redisUnavailable
deriving Repr, DecidableEq

/-- HTTP status of each GET /products/:id outcome. -/
def GetResult.status : GetResult → Nat
  | GetResult.ok _ _ => 200
  | GetResult.invalidId => 400
  | GetResult.notFound => 404
  | GetResult.redisUnavailable => 503

/-- Steps 2 and 3 of the read path (src/api/index.js lines 120-132): query
the replica on a cache miss, 404 on zero rows, else cacheSet the serialized
row with the configured TTL and answer MISS. -/
def getMissPath (w : World) (id : Int) (key : String) (t : Trace) :
    GetResult × World × Trace :=
  let t1 := Trace.merge t ⟨1, 0, 0, [], []⟩
  match List.filter (fun r => r.id == id) w.replicaDb with
  | [] => (GetResult.notFound, w, t1)
  | row :: _ =>
    match cacheSet w key (CacheVal.ser row) w.cacheTtlSeconds with
    | (Except.error _, t2) => (GetResult.redisUnavailable, w, Trace.merge t1 t2)
    | (Except.ok w2, t2) => (GetResult.ok row CacheStatus.miss, w2, Trace.merge t1 t2)

/-- GET /products/:id (src/api/index.js lines 101-133): liveness gate,
parseInt validation, cache probe with the JS truthiness test and the
JSON.parse inside the same try/catch, then the miss path. -/
def getProductById (w : World) (idParam : String) : GetResult × World × Trace :=
  if ensureRedis w = false then (GetResult.redisUnavailable, w, Trace.empty)
  else
    match parseIntJS idParam with
    | none => (GetResult.invalidId, w, Trace.empty)
    | some id =>
      match cacheGet w (productKey id) with
      | (Except.error _, t) => (GetResult.redisUnavailable, w, t)
      | (Except.ok none, t) => getMissPath w id (productKey id) t
      | (Except.ok (some v), t) =>
        if v.truthy then
          match jsonParse v with
          | some row => (GetResult.ok row CacheStatus.hit, w, t)
          | none => (GetResult.redisUnavailable, w, t)
        else getMissPath w id (productKey id) t

/-- The request body of PUT /products/:id: name and price_cents may each be
absent; a present price_cents is an integer (Number.isInteger rejects
everything else, modelled as absence). -/
structure Body where
  name : Option String
  price_cents : Option Int
deriving Repr, DecidableEq

/-- The body check at src/api/index.js line 158: name truthy (present and
nonempty) and price_cents an integer. -/
def validBody (b : Body) : Bool :=
  (match b.name with
   | some n => !(n == "")
   | none => false) &&
  b.price_cents.isSome

inductive PutResult where
  | ok (row : Row)
  | invalidId
  | invalidBody
  | notFound
  | redisUnavailable
deriving Repr, DecidableEq

/-- HTTP status of each PUT /products/:id outcome. -/
def PutResult.status : PutResult → Nat
  | PutResult.ok _ => 200
  | PutResult.invalidId => 400
  | PutResult.invalidBody => 400
  | PutResult.notFound => 404
  | PutResult.redisUnavailable => 503

/-- The row the UPDATE statement leaves for a matched id: attributes set,
updated_at refreshed to NOW(). -/
def updatedRow (id : Int) (b : Body) (now : Nat) : Row :=
  ⟨id, Option.getD b.name "", Option.getD b.price_cents 0, now⟩

/-- PUT /products/:id (src/api/index.js lines 151-177): liveness gate,
parseInt validation, body validation, UPDATE on the primary (committed even
when the later invalidation fails), 404 on zero rows, then cacheDel of the
product key. -/
def putProductById (w : World) (idParam : String) (b : Body) (now : Nat) :
    PutResult × World × Trace :=
  if ensureRedis w = false then (PutResult.redisUnavailable, w, Trace.empty)
  else
    match parseIntJS idParam with
    | none => (PutResult.invalidId, w, Trace.empty)
    | some id =>
      if validBody b = false then (PutResult.invalidBody, w, Trace.empty)
      else
        let t1 : Trace := ⟨0, 1, 0, [], []⟩
        let w1 : World :=
          ⟨w.redisReady, w.cache, w.replicaDb,
           List.map (fun r => if r.id == id then updatedRow id b now else r) w.primaryDb,
           w.getFails, w.setFails, w.delFails, w.cacheTtlSeconds⟩
        if (List.filter (fun r => r.id == id) w.primaryDb).isEmpty then
          (PutResult.notFound, w1, t1)
        else
          match cacheDel w1 (productKey id) with
          | (Except.error _, t2) => (PutResult.redisUnavailable, w1, Trace.merge t1 t2)
          | (Except.ok w2, t2) => (PutResult.ok (updatedRow id b now), w2, Trace.merge t1 t2)

/-- GET /health (src/api/index.js lines 90-92): always 200, reads only the
liveness flag, performs no I/O. The JSON body is modelled as a key-value
list to keep the field names observable: the code answers the pair ok set
to true and a field named redis carrying the liveness flag. -/
def healthRoute (w : World) : (Nat × List (String × Bool)) × World × Trace :=
  ((200, [("ok", true), ("redis", w.redisReady)]), w, Trace.empty)

/-- A sample row, used by the concrete witnesses and counterexamples. -/
def exRow : Row := ⟨7, "Widget", 999, 5⟩

/-- Cache up and empty, row 7 on both replica and primary. -/
def exWorldLive : World := ⟨true, [], [exRow], [exRow], false, false, false, 60⟩

/-- Cache liveness flag false, row 7 on both replica and primary. -/
def exWorldDown : World := ⟨false, [], [exRow], [exRow], false, false, false, 60⟩

/-- Cache holds the key product:7 with an empty raw string; both tables
empty. -/
def exWorldEmptyVal : World :=
  ⟨true, [("product:7", CacheVal.raw "")], [], [], false, false, false, 60⟩

/-- Cache holds a serialized copy of row 7; both tables empty. -/
def exWorldHit : World :=
  ⟨true, [("product:7", CacheVal.ser exRow)], [], [], false, false, false, 60⟩

/-- Cache up and empty but the underlying redis set call fails; row 7 on
both replica and primary. -/
def exWorldSetFails : World := ⟨true, [], [exRow], [exRow], false, true, false, 60⟩

/-- Cache up and empty but the underlying redis del call fails; row 7 on
both replica and primary. -/
def exWorldDelFails : World := ⟨true, [], [exRow], [exRow], false, false, true, 60⟩

/-- A valid request body for PUT /products/:id. -/
def exBody : Body := ⟨some "Widget2", some 1099⟩

/-- Looking up the key just written by insertCache yields the written
value (redis set followed by get on the same key). -/
theorem lookupCache_insert (c : List (String × CacheVal)) (k : String) (v : CacheVal) :
    lookupCache (insertCache c k v) k = some v := by
  simp [lookupCache, insertCache, List.find?_cons]

/-- Successful cacheSet leaves every field of the world unchanged except
the cache, which gains the written entry. -/
theorem cacheSet_ok_inv (w w2 : World) (k : String) (v : CacheVal) (ttl : Nat) (t : Trace)
    (h : cacheSet w k v ttl = (Except.ok w2, t)) :
    w2 = ⟨w.redisReady, insertCache w.cache k v, w.replicaDb, w.primaryDb,
      w.getFails, w.setFails, w.delFails, w.cacheTtlSeconds⟩ := by
  unfold cacheSet at h
  split at h
  · simp at h
  · split at h
    · simp at h
    · simp only [Prod.mk.injEq, Except.ok.injEq] at h
      exact h.1.symm

/-- An update filtered on an id that matches no row of the table leaves
the table unchanged. -/
theorem map_update_of_filter_nil (i : Int) (u : Row) (l : List Row)
    (h : List.filter (fun r => r.id == i) l = []) :
    List.map (fun r => if r.id == i then u else r) l = l := by
  have h2 : ∀ r ∈ l, ¬(r.id = i) := by simpa using h
  have h3 : List.map (fun r => if r.id == i then u else r) l = List.map id l :=
    List.map_congr_left (fun a ha => by simp [h2 a ha])
  rw [h3, List.map_id]

/-- C1: with the cache liveness flag false, each of cacheGet, cacheSet and
cacheDel fails immediately with the unavailable error without attempting
the underlying redis client call, and getProductById and putProductById
fail with the redis-unavailable outcome with an empty trace: no executor
query and no redis client call. -/
theorem c1_liveness_gate (w : World) (k : String) (v : CacheVal) (ttl : Nat)
    (idp : String) (b : Body) (now : Nat) (h : w.redisReady = false) :
    (cacheGet w k).1 = Except.error CacheErr.unavailable ∧
    (cacheGet w k).2.redisCalls = 0 ∧
    (cacheSet w k v ttl).1 = Except.error CacheErr.unavailable ∧
    (cacheSet w k v ttl).2.redisCalls = 0 ∧
    (cacheDel w k).1 = Except.error CacheErr.unavailable ∧
    (cacheDel w k).2.redisCalls = 0 ∧
    (getProductById w idp).1 = GetResult.redisUnavailable ∧
    (getProductById w idp).2.2 = Trace.empty ∧
    (putProductById w idp b now).1 = PutResult.redisUnavailable ∧
    (putProductById w idp b now).2.2 = Trace.empty := by
  refine ⟨?_, ?_, ?_, ?_, ?_, ?_, ?_, ?_, ?_, ?_⟩ <;>
    simp [cacheGet, cacheSet, cacheDel, getProductById, putProductById, ensureRedis, h,
      Trace.empty]

/-- Witness for C1 at the concrete world exWorldDown. -/
theorem c1_liveness_gate_witness :
    (cacheGet exWorldDown "product:7").1 = Except.error CacheErr.unavailable ∧
    (cacheGet exWorldDown "product:7").2.redisCalls = 0 ∧
    (cacheSet exWorldDown "product:7" (CacheVal.ser exRow) 60).1 =
      Except.error CacheErr.unavailable ∧
    (cacheSet exWorldDown "product:7" (CacheVal.ser exRow) 60).2.redisCalls = 0 ∧
    (cacheDel exWorldDown "product:7").1 = Except.error CacheErr.unavailable ∧
    (cacheDel exWorldDown "product:7").2.redisCalls = 0 ∧
    (getProductById exWorldDown "7").1 = GetResult.redisUnavailable ∧
    (getProductById exWorldDown "7").2.2 = Trace.empty ∧
    (putProductById exWorldDown "7" exBody 9).1 = PutResult.redisUnavailable ∧
    (putProductById exWorldDown "7" exBody 9).2.2 = Trace.empty :=
  c1_liveness_gate exWorldDown "product:7" (CacheVal.ser exRow) 60 "7" exBody 9 rfl

/-- C10: the liveness gate runs before id and body validation on both
routes, so with the flag false every request, however malformed, gets the
503 redis-unavailable outcome rather than the 400 invalid-argument one. -/
theorem c10_gate_before_validation (w : World) (s : String) (b : Body) (now : Nat)
    (h : w.redisReady = false) :
    (getProductById w s).1 = GetResult.redisUnavailable ∧
    (getProductById w s).1.status = 503 ∧
    (putProductById w s b now).1 = PutResult.redisUnavailable ∧
    (putProductById w s b now).1.status = 503 := by
  refine ⟨?_, ?_, ?_, ?_⟩ <;>
    simp [getProductById, putProductById, ensureRedis, h, GetResult.status, PutResult.status]

/-- Witness for C10: flag false, unparseable id and invalid body still get
503, not 400. -/
theorem c10_gate_before_validation_witness :
    (getProductById exWorldDown "abc").1 = GetResult.redisUnavailable ∧
    (getProductById exWorldDown "abc").1.status = 503 ∧
    (putProductById exWorldDown "abc" ⟨none, none⟩ 9).1 = PutResult.redisUnavailable ∧
    (putProductById exWorldDown "abc" ⟨none, none⟩ 9).1.status = 503 :=
  c10_gate_before_validation exWorldDown "abc" ⟨none, none⟩ 9 rfl

/-- C2 counterexample: with the liveness flag false, the unparseable id
abc gets the redis-unavailable outcome, not the invalid-argument one, so
validation does not precede the liveness gate; and the id -3, which is not
a well-formed positive integer key, passes validation and reaches the
cache (one redis client call). -/
theorem c2_counterexample :
    (getProductById exWorldDown "abc").1 ≠ GetResult.invalidId ∧
    (getProductById exWorldDown "abc").1 = GetResult.redisUnavailable ∧
    parseIntJS "-3" = some (-3) ∧
    (getProductById exWorldLive "-3").1 ≠ GetResult.invalidId ∧
    (getProductById exWorldLive "-3").2.2.redisCalls = 1 := by
  refine ⟨by decide, by decide, by decide, by decide, by decide⟩

/-- C2 amended: when the liveness gate passes (flag true), an id rejected
by the parseInt validation fails with the invalid-argument outcome with an
unchanged world and an empty trace: no cache and no store interaction. -/
theorem c2_invalid_id_rejected (w : World) (s : String)
    (hr : w.redisReady = true) (hp : parseIntJS s = none) :
    getProductById w s = (GetResult.invalidId, w, Trace.empty) := by
  simp [getProductById, ensureRedis, hr, hp]

/-- Witness for the amended C2 at the live world and the id abc. -/
theorem c2_invalid_id_rejected_witness :
    getProductById exWorldLive "abc" = (GetResult.invalidId, exWorldLive, Trace.empty) :=
  c2_invalid_id_rejected exWorldLive "abc" rfl rfl

/-- C9 counterexample: the health body has no field named cacheLive; the
liveness flag is reported under the field named redis. -/
theorem c9_counterexample :
    List.lookup "cacheLive" (healthRoute exWorldDown).1.2 = none ∧
    List.lookup "redis" (healthRoute exWorldDown).1.2 = some false := by
  refine ⟨by decide, by decide⟩

/-- C9 amended: GET /health never fails: for every state of the liveness
flag it returns status 200 with the body pairs ok set to true and redis
set to the current liveness value, leaves the world unchanged and performs
no cache or store I/O (empty trace); the liveness field is named redis,
not cacheLive. -/
theorem c9_health_never_fails (w : World) :
    healthRoute w = ((200, [("ok", true), ("redis", w.redisReady)]), w, Trace.empty) := rfl

/-- Hit path of the read route: flag true, redis get succeeds and finds a
serialized row under the product key, so the route answers the
deserialized row tagged HIT with exactly one redis call and no executor
query, leaving the world unchanged. -/
theorem getProductById_hit (w : World) (s : String) (i : Int) (row : Row)
    (hr : w.redisReady = true) (hg : w.getFails = false)
    (hp : parseIntJS s = some i)
    (hc : lookupCache w.cache (productKey i) = some (CacheVal.ser row)) :
    getProductById w s = (GetResult.ok row CacheStatus.hit, w, ⟨0, 0, 1, [], []⟩) := by
  simp [getProductById, ensureRedis, hr, hp, cacheGet, hg, hc, CacheVal.truthy, jsonParse]

/-- C3 counterexample: the key product:7 is present in the cache (holding
the empty string, which redis can store and which is falsy in the JS hit
test), yet the route does not answer HIT: it queries the ReadExecutor and
answers notFound. -/
theorem c3_counterexample :
    lookupCache exWorldEmptyVal.cache (productKey 7) = some (CacheVal.raw "") ∧
    (getProductById exWorldEmptyVal "7").1 = GetResult.notFound ∧
    (getProductById exWorldEmptyVal "7").2.2.readExecCalls = 1 := by
  refine ⟨by decide, by decide, by decide⟩

/-- C3 amended: for every valid id whose key is present in the cache with
a well-formed serialized entity value, the route answers that deserialized
row tagged HIT without querying the ReadExecutor; in particular a get
immediately following a successful cache store of that serialized value
answers HIT with the exact stored row (round trip, no drift). -/
theorem c3_cache_hit_roundtrip (w w2 : World) (s : String) (i : Int) (row : Row) (t : Trace)
    (hr : w.redisReady = true) (hg : w.getFails = false)
    (hp : parseIntJS s = some i)
    (hc : lookupCache w.cache (productKey i) = some (CacheVal.ser row))
    (hset : cacheSet w (productKey i) (CacheVal.ser row) w.cacheTtlSeconds =
      (Except.ok w2, t)) :
    getProductById w s = (GetResult.ok row CacheStatus.hit, w, ⟨0, 0, 1, [], []⟩) ∧
    getProductById w2 s = (GetResult.ok row CacheStatus.hit, w2, ⟨0, 0, 1, [], []⟩) := by
  have hw2 := cacheSet_ok_inv w w2 (productKey i) (CacheVal.ser row) w.cacheTtlSeconds t hset
  refine ⟨getProductById_hit w s i row hr hg hp hc, ?_⟩
  have hr2 : w2.redisReady = true := by rw [hw2]; exact hr
  have hg2 : w2.getFails = false := by rw [hw2]; exact hg
  have hc2 : lookupCache w2.cache (productKey i) = some (CacheVal.ser row) := by
    rw [hw2]; exact lookupCache_insert w.cache (productKey i) (CacheVal.ser row)
  exact getProductById_hit w2 s i row hr2 hg2 hp hc2

/-- Witness for the amended C3: in exWorldHit the key product:7 already
holds the serialized sample row, and storing it again succeeds and leaves
the same world, so both conjuncts answer HIT with the stored row. -/
theorem c3_cache_hit_roundtrip_witness :
    getProductById exWorldHit "7" =
      (GetResult.ok exRow CacheStatus.hit, exWorldHit, ⟨0, 0, 1, [], []⟩) ∧
    getProductById exWorldHit "7" =
      (GetResult.ok exRow CacheStatus.hit, exWorldHit, ⟨0, 0, 1, [], []⟩) :=
  c3_cache_hit_roundtrip exWorldHit exWorldHit "7" 7 exRow
    ⟨0, 0, 1, [(productKey 7, CacheVal.ser exRow, 60)], []⟩
    rfl rfl (by decide) (by decide) rfl

/-- C4: a valid id present neither in the cache nor in the replica store
makes the route answer notFound after one redis get and one replica query,
with no set call and an unchanged world: no cache entry is created. -/
theorem c4_notfound_no_repopulate (w : World) (s : String) (i : Int)
    (hr : w.redisReady = true) (hg : w.getFails = false)
    (hp : parseIntJS s = some i)
    (hc : lookupCache w.cache (productKey i) = none)
    (hdb : List.filter (fun r => r.id == i) w.replicaDb = []) :
    getProductById w s = (GetResult.notFound, w, ⟨1, 0, 1, [], []⟩) := by
  simp [getProductById, ensureRedis, hr, hp, cacheGet, hg, hc, getMissPath, hdb, Trace.merge]

/-- Witness for C4: live world with empty cache and empty replica. -/
theorem c4_notfound_no_repopulate_witness :
    getProductById ⟨true, [], [], [], false, false, false, 60⟩ "7" =
      (GetResult.notFound, ⟨true, [], [], [], false, false, false, 60⟩, ⟨1, 0, 1, [], []⟩) :=
  c4_notfound_no_repopulate ⟨true, [], [], [], false, false, false, 60⟩ "7" 7
    rfl rfl (by decide) (by decide) (by decide)

/-- C5: on a cache miss where the replica returns a row, the route calls
cacheSet with the serialized row and the configured TTL; if the set fails
the whole read fails with the redis-unavailable outcome even though the
replica query already ran (readExecCalls is 1 and the set was attempted
with the configured TTL, world unchanged), and if the set succeeds the row
is answered tagged MISS with the same set call recorded. -/
theorem c5_repopulate_ttl (w : World) (s : String) (i : Int) (row : Row) (rest : List Row)
    (hr : w.redisReady = true) (hg : w.getFails = false)
    (hp : parseIntJS s = some i)
    (hc : lookupCache w.cache (productKey i) = none)
    (hdb : List.filter (fun r => r.id == i) w.replicaDb = row :: rest) :
    (w.setFails = true →
      getProductById w s =
        (GetResult.redisUnavailable, w,
         ⟨1, 0, 2, [(productKey i, CacheVal.ser row, w.cacheTtlSeconds)], []⟩)) ∧
    (w.setFails = false →
      (getProductById w s).1 = GetResult.ok row CacheStatus.miss ∧
      (getProductById w s).2.2 =
        ⟨1, 0, 2, [(productKey i, CacheVal.ser row, w.cacheTtlSeconds)], []⟩) := by
  constructor
  · intro hs
    simp [getProductById, ensureRedis, hr, hp, cacheGet, hg, hc, getMissPath, hdb,
      cacheSet, hs, Trace.merge]
  · intro hs
    refine ⟨?_, ?_⟩ <;>
      simp [getProductById, ensureRedis, hr, hp, cacheGet, hg, hc, getMissPath, hdb,
        cacheSet, hs, Trace.merge]

/-- Witness for C5 at a live world whose underlying redis set call fails:
the replica row was fetched, the set was attempted with TTL 60, and the
read still fails with the redis-unavailable outcome. -/
theorem c5_repopulate_ttl_witness :
    (exWorldSetFails.setFails = true →
      getProductById exWorldSetFails "7" =
        (GetResult.redisUnavailable, exWorldSetFails,
         ⟨1, 0, 2, [(productKey 7, CacheVal.ser exRow, exWorldSetFails.cacheTtlSeconds)], []⟩)) ∧
    (exWorldSetFails.setFails = false →
      (getProductById exWorldSetFails "7").1 = GetResult.ok exRow CacheStatus.miss ∧
      (getProductById exWorldSetFails "7").2.2 =
        ⟨1, 0, 2, [(productKey 7, CacheVal.ser exRow, exWorldSetFails.cacheTtlSeconds)], []⟩) :=
  c5_repopulate_ttl exWorldSetFails "7" 7 exRow []
    rfl rfl (by decide) (by decide) (by decide)

/-- C6: a valid id and body with no matching row on the primary make the
update route answer notFound after exactly one primary query, with no del
call and no redis client call (no cache invalidation), and with the
primary table unchanged. -/
theorem c6_update_notfound_no_invalidation (w : World) (s : String) (i : Int)
    (b : Body) (now : Nat)
    (hr : w.redisReady = true)
    (hp : parseIntJS s = some i) (hb : validBody b = true)
    (hdb : List.filter (fun r => r.id == i) w.primaryDb = []) :
    (putProductById w s b now).1 = PutResult.notFound ∧
    (putProductById w s b now).2.2 = ⟨0, 1, 0, [], []⟩ ∧
    (putProductById w s b now).2.1 = w := by
  have hmap := map_update_of_filter_nil i (updatedRow i b now) w.primaryDb hdb
  have hmap2 : List.map (fun r => if r.id = i then updatedRow i b now else r) w.primaryDb
      = w.primaryDb := by simpa using hmap
  obtain ⟨wr, wc, wrep, wprim, wg, ws, wd, wt⟩ := w
  simp only [World.redisReady] at hr
  simp only [World.primaryDb] at hdb hmap hmap2
  refine ⟨?_, ?_, ?_⟩ <;>
    simp [putProductById, ensureRedis, hr, hp, hb, hdb, hmap, hmap2]

/-- Witness for C6: live world whose primary holds only row 7, updating
id 9. -/
theorem c6_update_notfound_no_invalidation_witness :
    (putProductById exWorldLive "9" exBody 3).1 = PutResult.notFound ∧
    (putProductById exWorldLive "9" exBody 3).2.2 = ⟨0, 1, 0, [], []⟩ ∧
    (putProductById exWorldLive "9" exBody 3).2.1 = exWorldLive :=
  c6_update_notfound_no_invalidation exWorldLive "9" 9 exBody 3
    rfl (by decide) (by decide) (by decide)

/-- C7: when the primary update matches a row and the cache invalidation
fails with the unavailable error, the route answers the redis-unavailable
outcome, the del of the product key was attempted, and the committed write
is not rolled back: the post-state primary holds the updated row. -/
theorem c7_invalidation_fails_write_committed (w : World) (s : String) (i : Int)
    (b : Body) (now : Nat) (row : Row) (rest : List Row)
    (hr : w.redisReady = true) (hd : w.delFails = true)
    (hp : parseIntJS s = some i) (hb : validBody b = true)
    (hdb : List.filter (fun r => r.id == i) w.primaryDb = row :: rest) :
    (putProductById w s b now).1 = PutResult.redisUnavailable ∧
    (putProductById w s b now).2.2.delCalls = [productKey i] ∧
    updatedRow i b now ∈ (putProductById w s b now).2.1.primaryDb := by
  have hrow : row ∈ w.primaryDb ∧ (row.id == i) = true :=
    List.mem_filter.mp (hdb ▸ List.mem_cons_self row rest)
  have hne : (List.filter (fun r => r.id == i) w.primaryDb).isEmpty = false := by
    rw [hdb]; rfl
  refine ⟨?_, ?_, ?_⟩
  · simp [putProductById, ensureRedis, hr, hp, hb, hne, cacheDel, hd]
  · simp [putProductById, ensureRedis, hr, hp, hb, hne, cacheDel, hd, Trace.merge]
  · have hmem : updatedRow i b now ∈
        List.map (fun r => if r.id == i then updatedRow i b now else r) w.primaryDb := by
      have h4 := List.mem_map_of_mem
        (fun r => if r.id == i then updatedRow i b now else r) hrow.1
      simpa [hrow.2] using h4
    have heq : (putProductById w s b now).2.1 =
        ⟨w.redisReady, w.cache, w.replicaDb,
         List.map (fun r => if r.id == i then updatedRow i b now else r) w.primaryDb,
         w.getFails, w.setFails, w.delFails, w.cacheTtlSeconds⟩ := by
      simp [putProductById, ensureRedis, hr, hp, hb, hne, cacheDel, hd]
    rw [heq]
    exact hmem

/-- Witness for C7: live world with failing del, updating the existing
row 7. -/
theorem c7_invalidation_fails_write_committed_witness :
    (putProductById exWorldDelFails "7" exBody 9).1 = PutResult.redisUnavailable ∧
    (putProductById exWorldDelFails "7" exBody 9).2.2.delCalls = [productKey 7] ∧
    updatedRow 7 exBody 9 ∈ (putProductById exWorldDelFails "7" exBody 9).2.1.primaryDb :=
  c7_invalidation_fails_write_committed exWorldDelFails "7" 7 exBody 9 exRow []
    rfl rfl (by decide) (by decide) (by decide)

/-- C8 counterexample: the key both routes build for id 7 is the string
product:7, which is not the string entity:7 stated by the data-model
section of the spec. -/
theorem c8_counterexample :
    productKey 7 = "product:7" ∧ productKey 7 ≠ "entity:" ++ toString (7 : Int) := by
  refine ⟨by decide, by decide⟩

/-- C8 amended: for one id, the read route records its repopulating set
call and the write route records its invalidating del call under the same
deterministic key, productKey id, which is the string product:<id> of the
external-interface section (not the entity:<id> of the data-model
section). -/
theorem c8_same_key_both_paths (w wp : World) (s sp : String) (i : Int)
    (row rowp : Row) (rest restp : List Row) (b : Body) (now : Nat)
    (hr : w.redisReady = true) (hg : w.getFails = false) (hs : w.setFails = false)
    (hp : parseIntJS s = some i)
    (hc : lookupCache w.cache (productKey i) = none)
    (hdb : List.filter (fun r => r.id == i) w.replicaDb = row :: rest)
    (hr2 : wp.redisReady = true) (hd2 : wp.delFails = false)
    (hp2 : parseIntJS sp = some i) (hb : validBody b = true)
    (hdb2 : List.filter (fun r => r.id == i) wp.primaryDb = rowp :: restp) :
    List.map (fun x => x.1) (getProductById w s).2.2.setCalls = [productKey i] ∧
    (putProductById wp sp b now).2.2.delCalls = [productKey i] ∧
    productKey i = "product:" ++ toString i := by
  have hne : (List.filter (fun r => r.id == i) wp.primaryDb).isEmpty = false := by
    rw [hdb2]; rfl
  refine ⟨?_, ?_, rfl⟩
  · simp [getProductById, ensureRedis, hr, hp, cacheGet, hg, hc, getMissPath, hdb,
      cacheSet, hs, Trace.merge]
  · simp [putProductById, ensureRedis, hr2, hp2, hb, hne, cacheDel, hd2, Trace.merge]

/-- Witness for the amended C8 at id 7, with a repopulating read in
exWorldLive and an invalidating update in a copy of it. -/
theorem c8_same_key_both_paths_witness :
    List.map (fun x => x.1) (getProductById exWorldLive "7").2.2.setCalls = [productKey 7] ∧
    (putProductById exWorldLive "7" exBody 9).2.2.delCalls = [productKey 7] ∧
    productKey 7 = "product:" ++ toString (7 : Int) :=
  c8_same_key_both_paths exWorldLive exWorldLive "7" "7" 7 exRow exRow [] [] exBody 9
    rfl rfl rfl (by decide) (by decide) (by decide)
    rfl rfl (by decide) (by decide) (by decide)
